import Mathlib

/-!
Shallow embedding of the Pipedream API client fallback logic:
the `PipedreamApiClient` class defined in
`src/pipedreammanager/commands/list-workflows.js` (versioned client with
fallback chains) and the simple client in
`src/pipedreammanager/utils/api-client.js`.

The network is modelled as an environment mapping each
(HTTP method, concrete request path) to a transport outcome; every client
operation is a function of that environment returning the ordered list of
requests it issued together with its result (resolution value or rejection
error), mirroring the sequential `try`/`catch` fallback structure of the
source.
-/

/-- JSON values, as produced by `JSON.parse` on a response body. -/
inductive Json where
  | null : Json
  | bool (b : Bool) : Json
  | num (n : Int) : Json
  | str (s : String) : Json
  | arr (xs : List Json) : Json
  | obj (fields : List (String × Json)) : Json

/-- Property lookup `j.k` on a JSON value (returns `none` for non-objects
    or absent keys, mirroring JS `undefined`). -/
def Json.getField : Json → String → Option Json
  | Json.obj fields, k => fields.lookup k
  | _, _ => none

/-- JS template-literal rendering of a value interpolated into a path. -/
def Json.render : Json → String
  | Json.null => "null"
  | Json.bool b => toString b
  | Json.num n => toString n
  | Json.str s => s
  | Json.arr _ => ""
  | Json.obj _ => "[object Object]"

/-- `${j.k}`: renders the field, or `"undefined"` when the field is absent. -/
def fieldStr (j : Json) (k : String) : String :=
  match j.getField k with
  | some v => v.render
  | none => "undefined"

/-- `s.startsWith(p)` (modelled over the character list). -/
def strStartsWith (s p : String) : Bool := p.data.isPrefixOf s.data

/-- `s.includes(c)` for a single character. -/
def strContainsChar (s : String) (c : Char) : Bool := s.data.contains c

/-- Whether `pat` occurs as a contiguous substring of `s`. -/
def strContainsSub (s pat : String) : Bool :=
  s.data.tails.any fun t => pat.data.isPrefixOf t

/-- An HTTP response: status code, raw body text, the result of
    `JSON.parse` on the body (`none` when the body is not valid JSON), and
    the JSON parser's error message for that body in the failing case. -/
structure HttpResponse where
  status : Nat
  raw : String
  parsed : Option Json
  parseMsg : String

/-- Outcome of one HTTPS request at the transport level: either the
    request errored before any response (`req.on('error')`), or a response
    arrived. -/
inductive HttpOutcome where
  | transportError (msg : String) : HttpOutcome
  | response (r : HttpResponse) : HttpOutcome

/-- The network environment: what the upstream API answers for each
    (method, concrete path) request. -/
def Env := String → String → HttpOutcome

/-- One concrete request issued by the client. -/
structure Request where
  method : String
  path : String
deriving DecidableEq, Repr

/-- Errors the client rejects with, by provenance: transport error,
    non-2xx status, unparseable 2xx body, or an error thrown by the
    fallback logic itself. -/
inductive ApiError where
  | transport (msg : String) : ApiError
  | statusError (status : Nat) (body : String) : ApiError
  | parseError (detail : String) : ApiError
  | opError (msg : String) : ApiError
deriving DecidableEq, Repr

/-- The `.message` of the JS `Error` each rejection carries. -/
def ApiError.message : ApiError → String
  | ApiError.transport m => m
  | ApiError.statusError s body =>
      "Request failed with status code " ++ toString s ++ ": " ++ body
  | ApiError.parseError d => "Failed to parse response: " ++ d
  | ApiError.opError m => m

/-- The response-handling core shared by both clients' `makeRequest`
    (`list-workflows.js` lines 160-213, `api-client.js` lines 48-76):
    2xx and parseable resolves with the parsed JSON; 2xx unparseable
    rejects with a parse error; other statuses reject with a status error
    carrying status code and raw body; a transport error rejects with the
    underlying error. -/
def fetch (env : Env) (req : Request) : Except ApiError Json :=
  match env req.method req.path with
  | HttpOutcome.transportError m => Except.error (ApiError.transport m)
  | HttpOutcome.response r =>
    if 200 ≤ r.status ∧ r.status < 300 then
      match r.parsed with
      | some j => Except.ok j
      | none => Except.error (ApiError.parseError r.parseMsg)
    else Except.error (ApiError.statusError r.status r.raw)

/-- Version/raw options accepted by the versioned client's `makeRequest`. -/
structure ReqOptions where
  useV2 : Bool
  useV1 : Bool
  rawEndpoint : Bool
deriving DecidableEq, Repr

def noOpts : ReqOptions := ⟨false, false, false⟩
def optsV2 : ReqOptions := ⟨true, false, false⟩
def optsV1 : ReqOptions := ⟨false, true, false⟩

/-- `endpoint.startsWith('/') ? endpoint : '/' + endpoint`. -/
def slashPrefix (endpoint : String) : String :=
  if strStartsWith endpoint "/" then endpoint else "/" ++ endpoint

/-- `_buildApiPath` of `list-workflows.js` (lines 223-245): explicit
    version in the endpoint wins; then `rawEndpoint`; then `useV2`;
    then `useV1`; default `/v1`. -/
def buildApiPath (endpoint : String) (options : ReqOptions) : String :=
  if strStartsWith endpoint "/v1/" || strStartsWith endpoint "/v2/" then
    endpoint
  else if options.rawEndpoint then
    endpoint
  else if options.useV2 then
    "/v2" ++ slashPrefix endpoint
  else if options.useV1 then
    "/v1" ++ slashPrefix endpoint
  else
    "/v1" ++ slashPrefix endpoint

/-- `makeRequest` of the versioned client: builds the path and issues one
    request; returns the request trace and the outcome. -/
def makeRequest (env : Env) (method endpoint : String) (options : ReqOptions) :
    List Request × Except ApiError Json :=
  let req : Request := ⟨method, buildApiPath endpoint options⟩
  ([req], fetch env req)

/-- `tryBothVersions` (lines 270-289): try the V2 endpoint, fall back to
    V1; if both fail, throw an error naming only the V1 failure reason. -/
def tryBothVersions (env : Env) (method endpointV1 : String)
    (endpointV2 : Option String) : List Request × Except ApiError Json :=
  let v2Endpoint := endpointV2.getD endpointV1
  let (t2, r2) := makeRequest env method v2Endpoint optsV2
  match r2 with
  | Except.ok j => (t2, Except.ok j)
  | Except.error _ =>
    let (t1, r1) := makeRequest env method endpointV1 optsV1
    match r1 with
    | Except.ok j => (t2 ++ t1, Except.ok j)
    | Except.error v1Error =>
      (t2 ++ t1, Except.error (ApiError.opError
        ("API request failed on both V1 and V2: " ++ v1Error.message)))

/-- `getUserDetails` (lines 252-259): `GET /users/me`, rethrowing the
    error unchanged on failure. -/
def getUserDetails (env : Env) : List Request × Except ApiError Json :=
  makeRequest env "GET" "/users/me" noOpts

/-- `userDetails?.data?.orgs` when it is an array (`&& length > 0` is
    checked by the callers via pattern matching on the list). -/
def getOrgs (user : Json) : List Json :=
  match user.getField "data" with
  | some d =>
    match d.getField "orgs" with
    | some (Json.arr xs) => xs
    | _ => []
  | none => []

/-- `getWorkflow` (lines 367-397): v2 then v1 `/workflows/{id}`, then
    `/users/me/workflows/{id}`, then — after fetching the current user —
    `/organizations/{orgs[0].id}/workflows/{id}`; if the user has no
    organizations, throw the "after trying multiple endpoints" error. -/
def getWorkflow (env : Env) (workflowId : String) :
    List Request × Except ApiError Json :=
  let (ta, ra) := tryBothVersions env "GET" ("/workflows/" ++ workflowId)
    (some ("/workflows/" ++ workflowId))
  match ra with
  | Except.ok j => (ta, Except.ok j)
  | Except.error _ =>
    let (tb, rb) := makeRequest env "GET"
      ("/users/me/workflows/" ++ workflowId) noOpts
    match rb with
    | Except.ok j => (ta ++ tb, Except.ok j)
    | Except.error _ =>
      let (tc, rc) := getUserDetails env
      match rc with
      | Except.ok user =>
        match getOrgs user with
        | org :: _ =>
          let (td, rd) := makeRequest env "GET"
            ("/organizations/" ++ fieldStr org "id" ++ "/workflows/" ++ workflowId)
            noOpts
          (ta ++ tb ++ tc ++ td, rd)
        | [] =>
          (ta ++ tb ++ tc, Except.error (ApiError.opError
            ("Failed to get workflow " ++ workflowId ++
              " after trying multiple endpoints")))
      | Except.error e => (ta ++ tb ++ tc, Except.error e)

/-- The org/workspace loop of `getProjectWorkflows` (lines 331-352):
    for each organization in order, try the organization endpoint, then
    the workspace endpoint; first success wins, otherwise continue. -/
def tryOrgsLoop (env : Env) (projectId : String) :
    List Json → List Request × Option Json
  | [] => ([], none)
  | org :: rest =>
    let oid := fieldStr org "id"
    let (t1, r1) := makeRequest env "GET"
      ("/organizations/" ++ oid ++ "/projects/" ++ projectId ++ "/workflows") noOpts
    match r1 with
    | Except.ok j => (t1, some j)
    | Except.error _ =>
      let (t2, r2) := makeRequest env "GET"
        ("/workspaces/" ++ oid ++ "/projects/" ++ projectId ++ "/workflows") noOpts
      match r2 with
      | Except.ok j => (t1 ++ t2, some j)
      | Except.error _ =>
        let (t3, r3) := tryOrgsLoop env projectId rest
        (t1 ++ t2 ++ t3, r3)

/-- `getProjectWorkflows` (lines 319-359): direct project endpoint, then
    per-organization endpoints, then the components API as last resort.
    A failure of the inner `getUserDetails` propagates. -/
def getProjectWorkflows (env : Env) (projectId : String) :
    List Request × Except ApiError Json :=
  let (ta, ra) := makeRequest env "GET"
    ("/projects/" ++ projectId ++ "/workflows") noOpts
  match ra with
  | Except.ok j => (ta, Except.ok j)
  | Except.error _ =>
    let (tb, rb) := getUserDetails env
    match rb with
    | Except.error e => (ta ++ tb, Except.error e)
    | Except.ok user =>
      let (tc, rc) := tryOrgsLoop env projectId (getOrgs user)
      match rc with
      | some j => (ta ++ tb ++ tc, Except.ok j)
      | none =>
        let (td, rd) := makeRequest env "GET"
          ("/components/workflows?project_id=" ++ projectId) noOpts
        (ta ++ tb ++ tc ++ td, rd)

/-- `comp.k === 'v'` for a string literal `v`: strict equality holds
    exactly when the field is that string. -/
def fieldIsStr (c : Json) (k v : String) : Bool :=
  match c.getField k with
  | some (Json.str s) => s == v
  | _ => false

/-- The trigger filter of `getWorkflowTriggers` (lines 463-465):
    `comp.key === 'trigger' || comp.type === 'trigger'`. -/
def isTriggerComp (c : Json) : Bool :=
  fieldIsStr c "key" "trigger" || fieldIsStr c "type" "trigger"

/-- The step filter of `getWorkflowSteps` (lines 508-510):
    `comp.key !== 'trigger' && comp.type !== 'trigger'`. -/
def isStepComp (c : Json) : Bool :=
  !(fieldIsStr c "key" "trigger") && !(fieldIsStr c "type" "trigger")

/-- The trigger list derived from a workflow's components. -/
def deriveTriggers (components : List Json) : List Json :=
  components.filter isTriggerComp

/-- The step list derived from a workflow's components. -/
def deriveSteps (components : List Json) : List Json :=
  components.filter isStepComp

/-- `workflow?.data?.components` when it is an array (the only shape on
    which the extraction fallback's `.filter` call completes). -/
def getComponents (wf : Json) : Option (List Json) :=
  match wf.getField "data" with
  | some d =>
    match d.getField "components" with
    | some (Json.arr xs) => some xs
    | _ => none
  | none => none

/-- The `{ data: <filtered>, extracted: true }` object the extraction
    fallback resolves with. -/
def extractedResult (filtered : List Json) : Json :=
  Json.obj [("data", Json.arr filtered), ("extracted", Json.bool true)]

/-- `getWorkflowTriggers` (lines 442-479): v2 then v1
    `/workflows/{id}/triggers`, then `/users/me/workflows/{id}/triggers`,
    then extraction from `getWorkflow`; any remaining failure becomes the
    fixed "after trying multiple endpoints" error. -/
def getWorkflowTriggers (env : Env) (workflowId : String) :
    List Request × Except ApiError Json :=
  let (ta, ra) := tryBothVersions env "GET"
    ("/workflows/" ++ workflowId ++ "/triggers")
    (some ("/workflows/" ++ workflowId ++ "/triggers"))
  match ra with
  | Except.ok j => (ta, Except.ok j)
  | Except.error _ =>
    let (tb, rb) := makeRequest env "GET"
      ("/users/me/workflows/" ++ workflowId ++ "/triggers") noOpts
    match rb with
    | Except.ok j => (ta ++ tb, Except.ok j)
    | Except.error _ =>
      let (tc, rc) := getWorkflow env workflowId
      let fail := Except.error (α := Json) (ApiError.opError
        "Failed to get workflow triggers after trying multiple endpoints")
      match rc with
      | Except.ok wf =>
        match getComponents wf with
        | some comps =>
          (ta ++ tb ++ tc, Except.ok (extractedResult (deriveTriggers comps)))
        | none => (ta ++ tb ++ tc, fail)
      | Except.error _ => (ta ++ tb ++ tc, fail)

/-- `getWorkflowSteps` (lines 487-524): the mirror of
    `getWorkflowTriggers` with the complementary filter. -/
def getWorkflowSteps (env : Env) (workflowId : String) :
    List Request × Except ApiError Json :=
  let (ta, ra) := tryBothVersions env "GET"
    ("/workflows/" ++ workflowId ++ "/steps")
    (some ("/workflows/" ++ workflowId ++ "/steps"))
  match ra with
  | Except.ok j => (ta, Except.ok j)
  | Except.error _ =>
    let (tb, rb) := makeRequest env "GET"
      ("/users/me/workflows/" ++ workflowId ++ "/steps") noOpts
    match rb with
    | Except.ok j => (ta ++ tb, Except.ok j)
    | Except.error _ =>
      let (tc, rc) := getWorkflow env workflowId
      let fail := Except.error (α := Json) (ApiError.opError
        "Failed to get workflow steps after trying multiple endpoints")
      match rc with
      | Except.ok wf =>
        match getComponents wf with
        | some comps =>
          (ta ++ tb ++ tc, Except.ok (extractedResult (deriveSteps comps)))
        | none => (ta ++ tb ++ tc, fail)
      | Except.error _ => (ta ++ tb ++ tc, fail)

/-- The classification rule as the specification words it (§4.4 rule 6 of
    the spec, and the filter of the `list-triggers` command): `type` is
    `source` or `trigger`, or `key` equals `trigger`, or the component
    carries a populated `source` sub-object (`source && source.type`). -/
def specIsTrigger (c : Json) : Bool :=
  fieldIsStr c "type" "source" || fieldIsStr c "type" "trigger" ||
    fieldIsStr c "key" "trigger" ||
    (match c.getField "source" with
     | some s => (s.getField "type").isSome
     | none => false)

/-! ## The simple client (`src/pipedreammanager/utils/api-client.js`) -/

/-- Path building inside the simple client's `makeRequest`
    (lines 24-33): append `org_id` when given, then add the `/v1` prefix
    unless the path already carries a version. -/
def simpleBuildPath (endpoint : String) (orgId : Option String) : String :=
  let p := match orgId with
    | some oid =>
      endpoint ++ (if strContainsChar endpoint '?' then "&org_id=" ++ oid
        else "?org_id=" ++ oid)
    | none => endpoint
  if strStartsWith p "/v1/" || strStartsWith p "/v2/" then p
  else "/v1" ++ slashPrefix p

/-- The simple client's `makeRequest` (lines 22-84). -/
def simpleMakeRequest (env : Env) (method endpoint : String)
    (orgId : Option String) : List Request × Except ApiError Json :=
  let req : Request := ⟨method, simpleBuildPath endpoint orgId⟩
  ([req], fetch env req)

/-- The simple client's `getUserDetails` (lines 91-98). -/
def simpleGetUserDetails (env : Env) : List Request × Except ApiError Json :=
  simpleMakeRequest env "GET" "/users/me" none

/-- The `if (!orgId) { try { ... getUserDetails ... } catch { } }` prelude
    shared by `getWorkflow`, `getProjectWorkflows` and `getWorkflowCode`
    of the simple client: a failed user fetch is swallowed and leaves the
    organization id unset. -/
def resolveOrgId (env : Env) : List Request × Option String :=
  let (t, r) := simpleGetUserDetails env
  match r with
  | Except.ok user =>
    (t, match getOrgs user with
        | org :: _ => some (fieldStr org "id")
        | [] => none)
  | Except.error _ => (t, none)

/-- The simple client's `getWorkflow` (lines 107-129). -/
def simpleGetWorkflow (env : Env) (workflowId : String)
    (orgId : Option String) : List Request × Except ApiError Json :=
  let (t0, oid) := match orgId with
    | some o => ([], some o)
    | none => resolveOrgId env
  let (t1, r1) := simpleMakeRequest env "GET" ("/workflows/" ++ workflowId) oid
  (t0 ++ t1, r1)

/-- The simple client's `getWorkflowCode` (lines 180-202). -/
def simpleGetWorkflowCode (env : Env) (workflowId : String)
    (orgId : Option String) : List Request × Except ApiError Json :=
  let (t0, oid) := match orgId with
    | some o => ([], some o)
    | none => resolveOrgId env
  let (t1, r1) := simpleMakeRequest env "GET"
    ("/workflows/" ++ workflowId ++ "/code") oid
  (t0 ++ t1, r1)

/-- The simple client's `getProjectWorkflows` (lines 138-171): primary
    project endpoint with optional `org_id`; on failure, one alternate
    organization endpoint when an org id is known; the primary error is
    rethrown when the alternate also fails or is unavailable. -/
def simpleGetProjectWorkflows (env : Env) (projectId : String)
    (orgId : Option String) : List Request × Except ApiError Json :=
  let (t0, oid) := match orgId with
    | some o => ([], some o)
    | none => resolveOrgId env
  let (t1, r1) := simpleMakeRequest env "GET"
    ("/projects/" ++ projectId ++ "/workflows") oid
  match r1 with
  | Except.ok j => (t0 ++ t1, Except.ok j)
  | Except.error e =>
    match oid with
    | some o =>
      let (t2, r2) := simpleMakeRequest env "GET"
        ("/organizations/" ++ o ++ "/projects/" ++ projectId ++ "/workflows") none
      match r2 with
      | Except.ok j => (t0 ++ t1 ++ t2, Except.ok j)
      | Except.error _ => (t0 ++ t1 ++ t2, Except.error e)
    | none => (t0 ++ t1, Except.error e)

/-! ## Path-normalization lemmas -/

lemma isPrefixOf_append_left (p a b : List Char) (h : p.length ≤ a.length) :
    p.isPrefixOf (a ++ b) = p.isPrefixOf a := by
  induction p generalizing a with
  | nil => simp [List.isPrefixOf]
  | cons x xs ih =>
    cases a with
    | nil => simp at h
    | cons y ys =>
      simp only [List.cons_append, List.isPrefixOf, List.append_eq]
      rw [ih ys (by simpa using h)]

lemma strStartsWith_append_lit (L rest pat : String)
    (h : pat.data.length ≤ L.data.length) :
    strStartsWith (L ++ rest) pat = strStartsWith L pat := by
  unfold strStartsWith
  rw [String.data_append]
  exact isPrefixOf_append_left _ _ _ h

lemma strStartsWith_lit_false (L rest pat : String)
    (hlen : pat.data.length ≤ L.data.length)
    (h : strStartsWith L pat = false) :
    strStartsWith (L ++ rest) pat = false := by
  rw [strStartsWith_append_lit _ _ _ hlen]; exact h

lemma strStartsWith_lit_true (L rest pat : String)
    (hlen : pat.data.length ≤ L.data.length)
    (h : strStartsWith L pat = true) :
    strStartsWith (L ++ rest) pat = true := by
  rw [strStartsWith_append_lit _ _ _ hlen]; exact h

lemma buildApiPath_useV2 (ep : String)
    (h1 : strStartsWith ep "/v1/" = false)
    (h2 : strStartsWith ep "/v2/" = false)
    (h3 : strStartsWith ep "/" = true) :
    buildApiPath ep optsV2 = "/v2" ++ ep := by
  simp [buildApiPath, slashPrefix, optsV2, h1, h2, h3]

lemma buildApiPath_useV1 (ep : String)
    (h1 : strStartsWith ep "/v1/" = false)
    (h2 : strStartsWith ep "/v2/" = false)
    (h3 : strStartsWith ep "/" = true) :
    buildApiPath ep optsV1 = "/v1" ++ ep := by
  simp [buildApiPath, slashPrefix, optsV1, h1, h2, h3]

lemma buildApiPath_noOpts (ep : String)
    (h1 : strStartsWith ep "/v1/" = false)
    (h2 : strStartsWith ep "/v2/" = false)
    (h3 : strStartsWith ep "/" = true) :
    buildApiPath ep noOpts = "/v1" ++ ep := by
  simp [buildApiPath, slashPrefix, noOpts, h1, h2, h3]

lemma simpleBuildPath_none (ep : String)
    (h1 : strStartsWith ep "/v1/" = false)
    (h2 : strStartsWith ep "/v2/" = false)
    (h3 : strStartsWith ep "/" = true) :
    simpleBuildPath ep none = "/v1" ++ ep := by
  simp [simpleBuildPath, slashPrefix, h1, h2, h3]

lemma pathWorkflowsV2 (wid : String) :
    buildApiPath ("/workflows/" ++ wid) optsV2 = "/v2/workflows/" ++ wid := by
  rw [buildApiPath_useV2 _
    (strStartsWith_lit_false "/workflows/" _ _ (by decide) (by decide))
    (strStartsWith_lit_false "/workflows/" _ _ (by decide) (by decide))
    (strStartsWith_lit_true "/workflows/" _ _ (by decide) (by decide)),
    ← String.append_assoc]
  rfl

lemma pathWorkflowsV1 (wid : String) :
    buildApiPath ("/workflows/" ++ wid) optsV1 = "/v1/workflows/" ++ wid := by
  rw [buildApiPath_useV1 _
    (strStartsWith_lit_false "/workflows/" _ _ (by decide) (by decide))
    (strStartsWith_lit_false "/workflows/" _ _ (by decide) (by decide))
    (strStartsWith_lit_true "/workflows/" _ _ (by decide) (by decide)),
    ← String.append_assoc]
  rfl

lemma pathUsersMeWorkflows (wid : String) :
    buildApiPath ("/users/me/workflows/" ++ wid) noOpts =
      "/v1/users/me/workflows/" ++ wid := by
  rw [buildApiPath_noOpts _
    (strStartsWith_lit_false "/users/me/workflows/" _ _ (by decide) (by decide))
    (strStartsWith_lit_false "/users/me/workflows/" _ _ (by decide) (by decide))
    (strStartsWith_lit_true "/users/me/workflows/" _ _ (by decide) (by decide)),
    ← String.append_assoc]
  rfl

lemma pathUsersMe : buildApiPath "/users/me" noOpts = "/v1/users/me" := by decide

lemma pathOrgWorkflows (oid wid : String) :
    buildApiPath ("/organizations/" ++ oid ++ "/workflows/" ++ wid) noOpts =
      "/v1/organizations/" ++ oid ++ "/workflows/" ++ wid := by
  have hA : strStartsWith ("/organizations/" ++ oid ++ "/workflows/" ++ wid) "/v1/" = false := by
    simp only [String.append_assoc]
    exact strStartsWith_lit_false "/organizations/" _ _ (by decide) (by decide)
  have hB : strStartsWith ("/organizations/" ++ oid ++ "/workflows/" ++ wid) "/v2/" = false := by
    simp only [String.append_assoc]
    exact strStartsWith_lit_false "/organizations/" _ _ (by decide) (by decide)
  have hC : strStartsWith ("/organizations/" ++ oid ++ "/workflows/" ++ wid) "/" = true := by
    simp only [String.append_assoc]
    exact strStartsWith_lit_true "/organizations/" _ _ (by decide) (by decide)
  rw [buildApiPath_noOpts _ hA hB hC, ← String.append_assoc]
  rfl

lemma pathTriggersV2 (wid : String) :
    buildApiPath ("/workflows/" ++ wid ++ "/triggers") optsV2 =
      "/v2/workflows/" ++ wid ++ "/triggers" := by
  have hA : strStartsWith ("/workflows/" ++ wid ++ "/triggers") "/v1/" = false := by
    simp only [String.append_assoc]
    exact strStartsWith_lit_false "/workflows/" _ _ (by decide) (by decide)
  have hB : strStartsWith ("/workflows/" ++ wid ++ "/triggers") "/v2/" = false := by
    simp only [String.append_assoc]
    exact strStartsWith_lit_false "/workflows/" _ _ (by decide) (by decide)
  have hC : strStartsWith ("/workflows/" ++ wid ++ "/triggers") "/" = true := by
    simp only [String.append_assoc]
    exact strStartsWith_lit_true "/workflows/" _ _ (by decide) (by decide)
  rw [buildApiPath_useV2 _ hA hB hC, ← String.append_assoc, ← String.append_assoc]
  rfl

lemma pathTriggersV1 (wid : String) :
    buildApiPath ("/workflows/" ++ wid ++ "/triggers") optsV1 =
      "/v1/workflows/" ++ wid ++ "/triggers" := by
  have hA : strStartsWith ("/workflows/" ++ wid ++ "/triggers") "/v1/" = false := by
    simp only [String.append_assoc]
    exact strStartsWith_lit_false "/workflows/" _ _ (by decide) (by decide)
  have hB : strStartsWith ("/workflows/" ++ wid ++ "/triggers") "/v2/" = false := by
    simp only [String.append_assoc]
    exact strStartsWith_lit_false "/workflows/" _ _ (by decide) (by decide)
  have hC : strStartsWith ("/workflows/" ++ wid ++ "/triggers") "/" = true := by
    simp only [String.append_assoc]
    exact strStartsWith_lit_true "/workflows/" _ _ (by decide) (by decide)
  rw [buildApiPath_useV1 _ hA hB hC, ← String.append_assoc, ← String.append_assoc]
  rfl

lemma pathUsersMeTriggers (wid : String) :
    buildApiPath ("/users/me/workflows/" ++ wid ++ "/triggers") noOpts =
      "/v1/users/me/workflows/" ++ wid ++ "/triggers" := by
  have hA : strStartsWith ("/users/me/workflows/" ++ wid ++ "/triggers") "/v1/" = false := by
    simp only [String.append_assoc]
    exact strStartsWith_lit_false "/users/me/workflows/" _ _ (by decide) (by decide)
  have hB : strStartsWith ("/users/me/workflows/" ++ wid ++ "/triggers") "/v2/" = false := by
    simp only [String.append_assoc]
    exact strStartsWith_lit_false "/users/me/workflows/" _ _ (by decide) (by decide)
  have hC : strStartsWith ("/users/me/workflows/" ++ wid ++ "/triggers") "/" = true := by
    simp only [String.append_assoc]
    exact strStartsWith_lit_true "/users/me/workflows/" _ _ (by decide) (by decide)
  rw [buildApiPath_noOpts _ hA hB hC, ← String.append_assoc, ← String.append_assoc]
  rfl

lemma pathStepsV2 (wid : String) :
    buildApiPath ("/workflows/" ++ wid ++ "/steps") optsV2 =
      "/v2/workflows/" ++ wid ++ "/steps" := by
  have hA : strStartsWith ("/workflows/" ++ wid ++ "/steps") "/v1/" = false := by
    simp only [String.append_assoc]
    exact strStartsWith_lit_false "/workflows/" _ _ (by decide) (by decide)
  have hB : strStartsWith ("/workflows/" ++ wid ++ "/steps") "/v2/" = false := by
    simp only [String.append_assoc]
    exact strStartsWith_lit_false "/workflows/" _ _ (by decide) (by decide)
  have hC : strStartsWith ("/workflows/" ++ wid ++ "/steps") "/" = true := by
    simp only [String.append_assoc]
    exact strStartsWith_lit_true "/workflows/" _ _ (by decide) (by decide)
  rw [buildApiPath_useV2 _ hA hB hC, ← String.append_assoc, ← String.append_assoc]
  rfl

lemma pathStepsV1 (wid : String) :
    buildApiPath ("/workflows/" ++ wid ++ "/steps") optsV1 =
      "/v1/workflows/" ++ wid ++ "/steps" := by
  have hA : strStartsWith ("/workflows/" ++ wid ++ "/steps") "/v1/" = false := by
    simp only [String.append_assoc]
    exact strStartsWith_lit_false "/workflows/" _ _ (by decide) (by decide)
  have hB : strStartsWith ("/workflows/" ++ wid ++ "/steps") "/v2/" = false := by
    simp only [String.append_assoc]
    exact strStartsWith_lit_false "/workflows/" _ _ (by decide) (by decide)
  have hC : strStartsWith ("/workflows/" ++ wid ++ "/steps") "/" = true := by
    simp only [String.append_assoc]
    exact strStartsWith_lit_true "/workflows/" _ _ (by decide) (by decide)
  rw [buildApiPath_useV1 _ hA hB hC, ← String.append_assoc, ← String.append_assoc]
  rfl

lemma pathUsersMeSteps (wid : String) :
    buildApiPath ("/users/me/workflows/" ++ wid ++ "/steps") noOpts =
      "/v1/users/me/workflows/" ++ wid ++ "/steps" := by
  have hA : strStartsWith ("/users/me/workflows/" ++ wid ++ "/steps") "/v1/" = false := by
    simp only [String.append_assoc]
    exact strStartsWith_lit_false "/users/me/workflows/" _ _ (by decide) (by decide)
  have hB : strStartsWith ("/users/me/workflows/" ++ wid ++ "/steps") "/v2/" = false := by
    simp only [String.append_assoc]
    exact strStartsWith_lit_false "/users/me/workflows/" _ _ (by decide) (by decide)
  have hC : strStartsWith ("/users/me/workflows/" ++ wid ++ "/steps") "/" = true := by
    simp only [String.append_assoc]
    exact strStartsWith_lit_true "/users/me/workflows/" _ _ (by decide) (by decide)
  rw [buildApiPath_noOpts _ hA hB hC, ← String.append_assoc, ← String.append_assoc]
  rfl

lemma pathProjectWorkflows (pid : String) :
    buildApiPath ("/projects/" ++ pid ++ "/workflows") noOpts =
      "/v1/projects/" ++ pid ++ "/workflows" := by
  have hA : strStartsWith ("/projects/" ++ pid ++ "/workflows") "/v1/" = false := by
    simp only [String.append_assoc]
    exact strStartsWith_lit_false "/projects/" _ _ (by decide) (by decide)
  have hB : strStartsWith ("/projects/" ++ pid ++ "/workflows") "/v2/" = false := by
    simp only [String.append_assoc]
    exact strStartsWith_lit_false "/projects/" _ _ (by decide) (by decide)
  have hC : strStartsWith ("/projects/" ++ pid ++ "/workflows") "/" = true := by
    simp only [String.append_assoc]
    exact strStartsWith_lit_true "/projects/" _ _ (by decide) (by decide)
  rw [buildApiPath_noOpts _ hA hB hC, ← String.append_assoc, ← String.append_assoc]
  rfl

lemma pathOrgProjectWorkflows (oid pid : String) :
    buildApiPath ("/organizations/" ++ oid ++ "/projects/" ++ pid ++ "/workflows") noOpts =
      "/v1/organizations/" ++ oid ++ "/projects/" ++ pid ++ "/workflows" := by
  have hA : strStartsWith ("/organizations/" ++ oid ++ "/projects/" ++ pid ++ "/workflows") "/v1/" = false := by
    simp only [String.append_assoc]
    exact strStartsWith_lit_false "/organizations/" _ _ (by decide) (by decide)
  have hB : strStartsWith ("/organizations/" ++ oid ++ "/projects/" ++ pid ++ "/workflows") "/v2/" = false := by
    simp only [String.append_assoc]
    exact strStartsWith_lit_false "/organizations/" _ _ (by decide) (by decide)
  have hC : strStartsWith ("/organizations/" ++ oid ++ "/projects/" ++ pid ++ "/workflows") "/" = true := by
    simp only [String.append_assoc]
    exact strStartsWith_lit_true "/organizations/" _ _ (by decide) (by decide)
  rw [buildApiPath_noOpts _ hA hB hC, ← String.append_assoc, ← String.append_assoc,
    ← String.append_assoc, ← String.append_assoc]
  rfl

lemma pathWsProjectWorkflows (oid pid : String) :
    buildApiPath ("/workspaces/" ++ oid ++ "/projects/" ++ pid ++ "/workflows") noOpts =
      "/v1/workspaces/" ++ oid ++ "/projects/" ++ pid ++ "/workflows" := by
  have hA : strStartsWith ("/workspaces/" ++ oid ++ "/projects/" ++ pid ++ "/workflows") "/v1/" = false := by
    simp only [String.append_assoc]
    exact strStartsWith_lit_false "/workspaces/" _ _ (by decide) (by decide)
  have hB : strStartsWith ("/workspaces/" ++ oid ++ "/projects/" ++ pid ++ "/workflows") "/v2/" = false := by
    simp only [String.append_assoc]
    exact strStartsWith_lit_false "/workspaces/" _ _ (by decide) (by decide)
  have hC : strStartsWith ("/workspaces/" ++ oid ++ "/projects/" ++ pid ++ "/workflows") "/" = true := by
    simp only [String.append_assoc]
    exact strStartsWith_lit_true "/workspaces/" _ _ (by decide) (by decide)
  rw [buildApiPath_noOpts _ hA hB hC, ← String.append_assoc, ← String.append_assoc,
    ← String.append_assoc, ← String.append_assoc]
  rfl

lemma pathComponentsWorkflows (pid : String) :
    buildApiPath ("/components/workflows?project_id=" ++ pid) noOpts =
      "/v1/components/workflows?project_id=" ++ pid := by
  rw [buildApiPath_noOpts _
    (strStartsWith_lit_false "/components/workflows?project_id=" _ _ (by decide) (by decide))
    (strStartsWith_lit_false "/components/workflows?project_id=" _ _ (by decide) (by decide))
    (strStartsWith_lit_true "/components/workflows?project_id=" _ _ (by decide) (by decide)),
    ← String.append_assoc]
  rfl

lemma spathWorkflows (wid : String) :
    simpleBuildPath ("/workflows/" ++ wid) none = "/v1/workflows/" ++ wid := by
  rw [simpleBuildPath_none _
    (strStartsWith_lit_false "/workflows/" _ _ (by decide) (by decide))
    (strStartsWith_lit_false "/workflows/" _ _ (by decide) (by decide))
    (strStartsWith_lit_true "/workflows/" _ _ (by decide) (by decide)),
    ← String.append_assoc]
  rfl

lemma spathWorkflowCode (wid : String) :
    simpleBuildPath ("/workflows/" ++ wid ++ "/code") none =
      "/v1/workflows/" ++ wid ++ "/code" := by
  have hA : strStartsWith ("/workflows/" ++ wid ++ "/code") "/v1/" = false := by
    simp only [String.append_assoc]
    exact strStartsWith_lit_false "/workflows/" _ _ (by decide) (by decide)
  have hB : strStartsWith ("/workflows/" ++ wid ++ "/code") "/v2/" = false := by
    simp only [String.append_assoc]
    exact strStartsWith_lit_false "/workflows/" _ _ (by decide) (by decide)
  have hC : strStartsWith ("/workflows/" ++ wid ++ "/code") "/" = true := by
    simp only [String.append_assoc]
    exact strStartsWith_lit_true "/workflows/" _ _ (by decide) (by decide)
  rw [simpleBuildPath_none _ hA hB hC, ← String.append_assoc, ← String.append_assoc]
  rfl

lemma spathProjectWorkflows (pid : String) :
    simpleBuildPath ("/projects/" ++ pid ++ "/workflows") none =
      "/v1/projects/" ++ pid ++ "/workflows" := by
  have hA : strStartsWith ("/projects/" ++ pid ++ "/workflows") "/v1/" = false := by
    simp only [String.append_assoc]
    exact strStartsWith_lit_false "/projects/" _ _ (by decide) (by decide)
  have hB : strStartsWith ("/projects/" ++ pid ++ "/workflows") "/v2/" = false := by
    simp only [String.append_assoc]
    exact strStartsWith_lit_false "/projects/" _ _ (by decide) (by decide)
  have hC : strStartsWith ("/projects/" ++ pid ++ "/workflows") "/" = true := by
    simp only [String.append_assoc]
    exact strStartsWith_lit_true "/projects/" _ _ (by decide) (by decide)
  rw [simpleBuildPath_none _ hA hB hC, ← String.append_assoc, ← String.append_assoc]
  rfl

lemma spathUsersMe : simpleBuildPath "/users/me" none = "/v1/users/me" := by decide

/-! ## Claim theorems -/

/-- C8: `_buildApiPath` is a pure function of (endpoint, options): an
    endpoint already starting with `/v1/` or `/v2/` is returned unchanged
    whatever the options; with `rawEndpoint` set it is returned unchanged;
    otherwise `/v2` is prefixed under `useV2`, `/v1` under `useV1`, and
    `/v1` by default, where the prefix attaches directly when the endpoint
    already starts with `/`. Determinism is inherent: the resolver is a
    mathematical function of its two arguments. -/
theorem c8_buildApiPath_resolver (ep : String) (opts : ReqOptions) :
    ((strStartsWith ep "/v1/" = true ∨ strStartsWith ep "/v2/" = true) →
      buildApiPath ep opts = ep)
    ∧ (opts.rawEndpoint = true → buildApiPath ep opts = ep)
    ∧ (strStartsWith ep "/v1/" = false → strStartsWith ep "/v2/" = false →
        opts.rawEndpoint = false → opts.useV2 = true →
        buildApiPath ep opts = "/v2" ++ slashPrefix ep)
    ∧ (strStartsWith ep "/v1/" = false → strStartsWith ep "/v2/" = false →
        opts.rawEndpoint = false → opts.useV2 = false → opts.useV1 = true →
        buildApiPath ep opts = "/v1" ++ slashPrefix ep)
    ∧ (strStartsWith ep "/v1/" = false → strStartsWith ep "/v2/" = false →
        opts.rawEndpoint = false → opts.useV2 = false → opts.useV1 = false →
        buildApiPath ep opts = "/v1" ++ slashPrefix ep)
    ∧ (strStartsWith ep "/" = true → slashPrefix ep = ep) := by
  refine ⟨?_, ?_, ?_, ?_, ?_, ?_⟩
  · rintro (h | h) <;> simp [buildApiPath, h]
  · intro hraw
    cases h1 : strStartsWith ep "/v1/" <;> cases h2 : strStartsWith ep "/v2/" <;>
      simp [buildApiPath, h1, h2, hraw]
  · intro h1 h2 hraw hv2
    simp [buildApiPath, h1, h2, hraw, hv2]
  · intro h1 h2 hraw hv2 hv1
    simp [buildApiPath, h1, h2, hraw, hv2, hv1]
  · intro h1 h2 hraw hv2 hv1
    simp [buildApiPath, h1, h2, hraw, hv2, hv1]
  · intro h
    simp [slashPrefix, h]

/-- Witness for C8: the spec's own example, `resolve("/v2/foo", "v1")`
    returns `/v2/foo` unchanged. -/
theorem c8_buildApiPath_resolver_witness :
    buildApiPath "/v2/foo" optsV1 = "/v2/foo" :=
  (c8_buildApiPath_resolver "/v2/foo" optsV1).1 (Or.inr (by decide))

/-- C4: the trigger filter and the step filter of the derive-from-workflow
    fallback partition any component list: their concatenation is a
    permutation of the input (nothing lost, nothing double-counted) and no
    component lands in both. -/
theorem c4_derivation_partition (components : List Json) :
    (deriveTriggers components ++ deriveSteps components).Perm components
    ∧ ∀ c, c ∈ deriveTriggers components → c ∉ deriveSteps components := by
  have hneg : ∀ c, isStepComp c = !(isTriggerComp c) := by
    intro c
    unfold isStepComp isTriggerComp
    cases fieldIsStr c "key" "trigger" <;> cases fieldIsStr c "type" "trigger" <;> rfl
  constructor
  · unfold deriveTriggers deriveSteps
    have : components.filter isStepComp =
        components.filter (fun c => !(isTriggerComp c)) := by
      apply List.filter_congr
      intro c _
      exact hneg c
    rw [this]
    exact List.filter_append_perm _ _
  · intro c hT hS
    unfold deriveTriggers at hT
    unfold deriveSteps at hS
    have h1 : isTriggerComp c = true := (List.mem_filter.mp hT).2
    have h2 : isStepComp c = true := (List.mem_filter.mp hS).2
    rw [hneg c, h1] at h2
    exact Bool.false_ne_true h2

def compTrigSample : Json := Json.obj [("key", Json.str "trigger"), ("type", Json.str "source")]
def compStepSample : Json := Json.obj [("key", Json.str "step1"), ("type", Json.str "action")]

/-- Witness for C4 at the spec's §8 sample component list. -/
theorem c4_derivation_partition_witness :
    (deriveTriggers [compTrigSample, compStepSample] ++
      deriveSteps [compTrigSample, compStepSample]).Perm
      [compTrigSample, compStepSample]
    ∧ compTrigSample ∉ deriveSteps [compTrigSample, compStepSample] :=
  ⟨(c4_derivation_partition [compTrigSample, compStepSample]).1,
   (c4_derivation_partition [compTrigSample, compStepSample]).2 compTrigSample
     (show compTrigSample ∈ [compTrigSample] by simp)⟩

/-- C2: `getWorkflow` tries `GET /v2/workflows/{id}`, then
    `GET /v1/workflows/{id}`, then `GET /v1/users/me/workflows/{id}`, then
    (after resolving the organization via `GET /v1/users/me`)
    `GET /v1/organizations/{org}/workflows/{id}` with the first listed
    organization; each later candidate runs only after the previous one
    failed, and the first success is returned with no later candidate
    invoked (the request trace stops at the successful candidate). -/
theorem c2_getWorkflow_fallback_order (env : Env) (wid : String) :
    (∀ j : Json, fetch env ⟨"GET", "/v2/workflows/" ++ wid⟩ = Except.ok j →
      getWorkflow env wid = ([⟨"GET", "/v2/workflows/" ++ wid⟩], Except.ok j))
    ∧ (∀ (e1 : ApiError) (j : Json),
        fetch env ⟨"GET", "/v2/workflows/" ++ wid⟩ = Except.error e1 →
        fetch env ⟨"GET", "/v1/workflows/" ++ wid⟩ = Except.ok j →
        getWorkflow env wid =
          ([⟨"GET", "/v2/workflows/" ++ wid⟩, ⟨"GET", "/v1/workflows/" ++ wid⟩],
           Except.ok j))
    ∧ (∀ (e1 e2 : ApiError) (j : Json),
        fetch env ⟨"GET", "/v2/workflows/" ++ wid⟩ = Except.error e1 →
        fetch env ⟨"GET", "/v1/workflows/" ++ wid⟩ = Except.error e2 →
        fetch env ⟨"GET", "/v1/users/me/workflows/" ++ wid⟩ = Except.ok j →
        getWorkflow env wid =
          ([⟨"GET", "/v2/workflows/" ++ wid⟩, ⟨"GET", "/v1/workflows/" ++ wid⟩,
            ⟨"GET", "/v1/users/me/workflows/" ++ wid⟩], Except.ok j))
    ∧ (∀ (e1 e2 e3 : ApiError) (user org : Json) (rest : List Json) (j : Json),
        fetch env ⟨"GET", "/v2/workflows/" ++ wid⟩ = Except.error e1 →
        fetch env ⟨"GET", "/v1/workflows/" ++ wid⟩ = Except.error e2 →
        fetch env ⟨"GET", "/v1/users/me/workflows/" ++ wid⟩ = Except.error e3 →
        fetch env ⟨"GET", "/v1/users/me"⟩ = Except.ok user →
        getOrgs user = org :: rest →
        fetch env ⟨"GET", "/v1/organizations/" ++ fieldStr org "id" ++ "/workflows/" ++ wid⟩ =
          Except.ok j →
        getWorkflow env wid =
          ([⟨"GET", "/v2/workflows/" ++ wid⟩, ⟨"GET", "/v1/workflows/" ++ wid⟩,
            ⟨"GET", "/v1/users/me/workflows/" ++ wid⟩, ⟨"GET", "/v1/users/me"⟩,
            ⟨"GET", "/v1/organizations/" ++ fieldStr org "id" ++ "/workflows/" ++ wid⟩],
           Except.ok j)) := by
  refine ⟨?_, ?_, ?_, ?_⟩
  · intro j h1
    simp only [getWorkflow, tryBothVersions, makeRequest, Option.getD_some,
      pathWorkflowsV2, h1]
  · intro e1 j h1 h2
    simp only [getWorkflow, tryBothVersions, makeRequest, Option.getD_some,
      pathWorkflowsV2, pathWorkflowsV1, h1, h2, List.cons_append, List.nil_append]
  · intro e1 e2 j h1 h2 h3
    simp only [getWorkflow, tryBothVersions, makeRequest, Option.getD_some,
      pathWorkflowsV2, pathWorkflowsV1, pathUsersMeWorkflows, h1, h2, h3,
      List.cons_append, List.nil_append]
  · intro e1 e2 e3 user org rest j h1 h2 h3 hme horgs h4
    simp only [getWorkflow, tryBothVersions, makeRequest, getUserDetails,
      Option.getD_some, pathWorkflowsV2, pathWorkflowsV1, pathUsersMeWorkflows,
      pathUsersMe, pathOrgWorkflows, h1, h2, h3, hme, horgs, h4,
      List.cons_append, List.nil_append]

def orgSample : Json := Json.obj [("id", Json.str "org_1")]
def userSample : Json := Json.obj [("data", Json.obj [("orgs", Json.arr [orgSample])])]
def wfSample : Json := Json.obj [("data", Json.obj [("id", Json.str "p_ABC"), ("name", Json.str "Test")])]

/-- Environment for the spec's §8 scenario: 404 everywhere except the
    user endpoint (organization `org_1`) and the organization-scoped
    workflow endpoint. -/
def envScenario : Env := fun _ p =>
  if p = "/v1/users/me" then HttpOutcome.response ⟨200, "", some userSample, ""⟩
  else if p = "/v1/organizations/org_1/workflows/p_ABC" then
    HttpOutcome.response ⟨200, "", some wfSample, ""⟩
  else HttpOutcome.response ⟨404, "Not Found", none, ""⟩

/-- Witness for C2: the spec's §8 scenario resolves via the
    organization-scoped candidate after the direct candidates 404. -/
theorem c2_getWorkflow_fallback_order_witness :
    getWorkflow envScenario "p_ABC" =
      ([⟨"GET", "/v2/workflows/p_ABC"⟩, ⟨"GET", "/v1/workflows/p_ABC"⟩,
        ⟨"GET", "/v1/users/me/workflows/p_ABC"⟩, ⟨"GET", "/v1/users/me"⟩,
        ⟨"GET", "/v1/organizations/org_1/workflows/p_ABC"⟩],
       Except.ok wfSample) :=
  (c2_getWorkflow_fallback_order envScenario "p_ABC").2.2.2
    (ApiError.statusError 404 "Not Found") (ApiError.statusError 404 "Not Found")
    (ApiError.statusError 404 "Not Found") userSample orgSample [] wfSample
    rfl rfl rfl rfl rfl rfl

/-- Environment in which every endpoint fails with 404 except
    `GET /v1/users/me`, which reports organization `org_1`. -/
def envAllFail : Env := fun _ p =>
  if p = "/v1/users/me" then HttpOutcome.response ⟨200, "", some userSample, ""⟩
  else HttpOutcome.response ⟨404, "Not Found", none, ""⟩

/-- Counterexample for C1: with every candidate failing, `getWorkflow`
    attempts all five requests but rejects with the last candidate's own
    status error, whose message names none of the attempted endpoints —
    it does not enumerate the N attempted endpoints with their reasons. -/
theorem c1_counterexample :
    getWorkflow envAllFail "w1" =
      ([⟨"GET", "/v2/workflows/w1"⟩, ⟨"GET", "/v1/workflows/w1"⟩,
        ⟨"GET", "/v1/users/me/workflows/w1"⟩, ⟨"GET", "/v1/users/me"⟩,
        ⟨"GET", "/v1/organizations/org_1/workflows/w1"⟩],
       Except.error (ApiError.statusError 404 "Not Found"))
    ∧ (ApiError.statusError 404 "Not Found").message =
        "Request failed with status code 404: Not Found"
    ∧ strContainsSub (ApiError.statusError 404 "Not Found").message
        "/v2/workflows/w1" = false
    ∧ strContainsSub (ApiError.statusError 404 "Not Found").message
        "/v1/workflows/w1" = false
    ∧ strContainsSub (ApiError.statusError 404 "Not Found").message
        "/v1/users/me/workflows/w1" = false
    ∧ strContainsSub (ApiError.statusError 404 "Not Found").message
        "/v1/organizations/org_1/workflows/w1" = false :=
  ⟨rfl, rfl, by decide, by decide, by decide, by decide⟩

/-- C1 (amended): when every candidate of `getWorkflow` fails, the
    operation rejects with a single error only after all candidates have
    been attempted, but the error does not enumerate the attempted
    endpoints: with an organization available it is the organization
    candidate's own error, and with none it is the fixed
    "after trying multiple endpoints" message. -/
theorem c1_exhaustion_single_error (env : Env) (wid : String) :
    (∀ (e1 e2 e3 e4 : ApiError) (user org : Json) (rest : List Json),
      fetch env ⟨"GET", "/v2/workflows/" ++ wid⟩ = Except.error e1 →
      fetch env ⟨"GET", "/v1/workflows/" ++ wid⟩ = Except.error e2 →
      fetch env ⟨"GET", "/v1/users/me/workflows/" ++ wid⟩ = Except.error e3 →
      fetch env ⟨"GET", "/v1/users/me"⟩ = Except.ok user →
      getOrgs user = org :: rest →
      fetch env ⟨"GET", "/v1/organizations/" ++ fieldStr org "id" ++ "/workflows/" ++ wid⟩ =
        Except.error e4 →
      getWorkflow env wid =
        ([⟨"GET", "/v2/workflows/" ++ wid⟩, ⟨"GET", "/v1/workflows/" ++ wid⟩,
          ⟨"GET", "/v1/users/me/workflows/" ++ wid⟩, ⟨"GET", "/v1/users/me"⟩,
          ⟨"GET", "/v1/organizations/" ++ fieldStr org "id" ++ "/workflows/" ++ wid⟩],
         Except.error e4))
    ∧ (∀ (e1 e2 e3 : ApiError) (user : Json),
      fetch env ⟨"GET", "/v2/workflows/" ++ wid⟩ = Except.error e1 →
      fetch env ⟨"GET", "/v1/workflows/" ++ wid⟩ = Except.error e2 →
      fetch env ⟨"GET", "/v1/users/me/workflows/" ++ wid⟩ = Except.error e3 →
      fetch env ⟨"GET", "/v1/users/me"⟩ = Except.ok user →
      getOrgs user = [] →
      getWorkflow env wid =
        ([⟨"GET", "/v2/workflows/" ++ wid⟩, ⟨"GET", "/v1/workflows/" ++ wid⟩,
          ⟨"GET", "/v1/users/me/workflows/" ++ wid⟩, ⟨"GET", "/v1/users/me"⟩],
         Except.error (ApiError.opError
           ("Failed to get workflow " ++ wid ++ " after trying multiple endpoints")))) := by
  constructor
  · intro e1 e2 e3 e4 user org rest h1 h2 h3 hme horgs h4
    simp only [getWorkflow, tryBothVersions, makeRequest, getUserDetails,
      Option.getD_some, pathWorkflowsV2, pathWorkflowsV1, pathUsersMeWorkflows,
      pathUsersMe, pathOrgWorkflows, h1, h2, h3, hme, horgs, h4,
      List.cons_append, List.nil_append]
  · intro e1 e2 e3 user h1 h2 h3 hme horgs
    simp only [getWorkflow, tryBothVersions, makeRequest, getUserDetails,
      Option.getD_some, pathWorkflowsV2, pathWorkflowsV1, pathUsersMeWorkflows,
      pathUsersMe, h1, h2, h3, hme, horgs,
      List.cons_append, List.nil_append]

/-- Witness for the amended C1 at the all-404 environment. -/
theorem c1_exhaustion_single_error_witness :
    getWorkflow envAllFail "w9" =
      ([⟨"GET", "/v2/workflows/w9"⟩, ⟨"GET", "/v1/workflows/w9"⟩,
        ⟨"GET", "/v1/users/me/workflows/w9"⟩, ⟨"GET", "/v1/users/me"⟩,
        ⟨"GET", "/v1/organizations/org_1/workflows/w9"⟩],
       Except.error (ApiError.statusError 404 "Not Found")) :=
  (c1_exhaustion_single_error envAllFail "w9").1
    (ApiError.statusError 404 "Not Found") (ApiError.statusError 404 "Not Found")
    (ApiError.statusError 404 "Not Found") (ApiError.statusError 404 "Not Found")
    userSample orgSample [] rfl rfl rfl rfl rfl rfl

/-- Environment whose every response is `200 {}`: valid JSON with no
    `data` key. -/
def envNoData : Env := fun _ _ =>
  HttpOutcome.response ⟨200, "\x7b\x7d", some (Json.obj []), ""⟩

/-- Counterexample for C3: a 2xx response whose JSON has no `data` key is
    NOT treated as a candidate failure — `getWorkflow` resolves with it at
    the very first candidate and the chain does not continue. -/
theorem c3_counterexample :
    getWorkflow envNoData "w1" =
      ([⟨"GET", "/v2/workflows/w1"⟩], Except.ok (Json.obj []))
    ∧ (Json.obj []).getField "data" = none :=
  ⟨rfl, rfl⟩

/-- C3 (amended): a candidate succeeds exactly on a 2xx response with a
    parseable JSON body, whether or not the JSON contains a `data` key:
    even with `data` absent, the first candidate's response resolves the
    whole operation unmodified and no further candidate is attempted. -/
theorem c3_success_needs_no_data_key (env : Env) (wid : String) (j : Json)
    (hj : j.getField "data" = none)
    (h1 : fetch env ⟨"GET", "/v2/workflows/" ++ wid⟩ = Except.ok j) :
    getWorkflow env wid = ([⟨"GET", "/v2/workflows/" ++ wid⟩], Except.ok j) := by
  simp only [getWorkflow, tryBothVersions, makeRequest, Option.getD_some,
    pathWorkflowsV2, h1]

/-- Witness for the amended C3 at the `200 {}` environment. -/
theorem c3_success_needs_no_data_key_witness :
    getWorkflow envNoData "w2" =
      ([⟨"GET", "/v2/workflows/w2"⟩], Except.ok (Json.obj [])) :=
  c3_success_needs_no_data_key envNoData "w2" (Json.obj []) rfl rfl

/-- C7: `makeRequest` resolves with the parsed JSON body exactly when the
    status is in [200,300) and the body parses; a non-2xx status rejects
    with a status error whose message carries the status code and the raw
    body; a 2xx unparseable body rejects with a parse error; a transport
    failure rejects with the underlying error; and the three rejection
    forms are pairwise distinguishable. -/
theorem c7_makeRequest_contract (env : Env) (method ep : String)
    (opts : ReqOptions) :
    (∀ j : Json, (makeRequest env method ep opts).2 = Except.ok j ↔
      (∃ r : HttpResponse,
        env method (buildApiPath ep opts) = HttpOutcome.response r ∧
        200 ≤ r.status ∧ r.status < 300 ∧ r.parsed = some j))
    ∧ (∀ r : HttpResponse,
        env method (buildApiPath ep opts) = HttpOutcome.response r →
        ¬(200 ≤ r.status ∧ r.status < 300) →
        (makeRequest env method ep opts).2 =
          Except.error (ApiError.statusError r.status r.raw))
    ∧ (∀ s b, (ApiError.statusError s b).message =
        "Request failed with status code " ++ toString s ++ ": " ++ b)
    ∧ (∀ r : HttpResponse,
        env method (buildApiPath ep opts) = HttpOutcome.response r →
        200 ≤ r.status → r.status < 300 → r.parsed = none →
        (makeRequest env method ep opts).2 =
          Except.error (ApiError.parseError r.parseMsg))
    ∧ (∀ m, env method (buildApiPath ep opts) = HttpOutcome.transportError m →
        (makeRequest env method ep opts).2 =
          Except.error (ApiError.transport m))
    ∧ (∀ s b d m, ApiError.parseError d ≠ ApiError.statusError s b ∧
        ApiError.transport m ≠ ApiError.statusError s b ∧
        ApiError.transport m ≠ ApiError.parseError d) := by
  refine ⟨?_, ?_, ?_, ?_, ?_, ?_⟩
  · intro j
    constructor
    · intro h
      cases henv : env method (buildApiPath ep opts) with
      | transportError m => simp [makeRequest, fetch, henv] at h
      | response r =>
        by_cases hs : 200 ≤ r.status ∧ r.status < 300
        · cases hp : r.parsed with
          | none => simp [makeRequest, fetch, henv, hp, hs] at h
          | some j' =>
            simp [makeRequest, fetch, henv, hp, hs] at h
            refine ⟨r, rfl, hs.1, hs.2, ?_⟩
            rw [hp, h]
        · simp [makeRequest, fetch, henv, hs] at h
    · rintro ⟨r, henv, hs1, hs2, hp⟩
      simp [makeRequest, fetch, henv, hp, hs1, hs2]
  · intro r henv hs
    simp [makeRequest, fetch, henv, hs]
  · intro s b
    rfl
  · intro r henv hs1 hs2 hp
    simp [makeRequest, fetch, henv, hp, hs1, hs2]
  · intro m henv
    simp [makeRequest, fetch, henv]
  · intro s b d m
    refine ⟨?_, ?_, ?_⟩ <;> intro h <;> exact ApiError.noConfusion h

/-- Environment whose every response is a 2xx JSON array body. -/
def envListBody : Env := fun _ _ =>
  HttpOutcome.response ⟨200, "[1]", some (Json.arr [Json.num 1]), ""⟩

/-- Witness for C7: a 200 response with parseable body resolves with the
    parsed JSON. -/
theorem c7_makeRequest_contract_witness :
    (makeRequest envListBody "GET" "/users/me" noOpts).2 =
      Except.ok (Json.arr [Json.num 1]) :=
  ((c7_makeRequest_contract envListBody "GET" "/users/me" noOpts).1
    (Json.arr [Json.num 1])).mpr
    ⟨⟨200, "[1]", some (Json.arr [Json.num 1]), ""⟩, rfl, by norm_num, by norm_num, rfl⟩

def compSource : Json := Json.obj [("key", Json.str "s1"), ("type", Json.str "source")]
def wfCompSource : Json := Json.obj [("data", Json.obj [("components", Json.arr [compSource])])]

/-- Environment where only the v2 workflow fetch for `w5` succeeds,
    forcing the trigger/step extraction fallback. -/
def envExtract : Env := fun _ p =>
  if p = "/v2/workflows/w5" then HttpOutcome.response ⟨200, "", some wfCompSource, ""⟩
  else HttpOutcome.response ⟨404, "Not Found", none, ""⟩

/-- Counterexample for C5: a component of `type: "source"` satisfies the
    claimed trigger predicate, but the derive-from-workflow fallback of
    `getWorkflowTriggers`/`getWorkflowSteps` classifies it as a step: the
    code's filter tests only `key === 'trigger' || type === 'trigger'`. -/
theorem c5_counterexample :
    specIsTrigger compSource = true
    ∧ isTriggerComp compSource = false
    ∧ (getWorkflowTriggers envExtract "w5").2 = Except.ok (extractedResult [])
    ∧ (getWorkflowSteps envExtract "w5").2 =
        Except.ok (extractedResult [compSource]) :=
  ⟨rfl, rfl, rfl, rfl⟩

/-- C5 (amended): in the derive-from-workflow fallback, a component is
    classified as a trigger iff its `key` equals `trigger` or its `type`
    equals `trigger` (the `source` type and a populated `source`
    sub-object play no role there; the richer predicate appears only in
    the `list-triggers` command's own filtering); every other component is
    a step. -/
theorem c5_extraction_classification (env : Env) (wid : String) :
    (∀ (e1 e2 e3 : ApiError) (twf : List Request) (wf : Json) (comps : List Json),
      fetch env ⟨"GET", "/v2/workflows/" ++ wid ++ "/triggers"⟩ = Except.error e1 →
      fetch env ⟨"GET", "/v1/workflows/" ++ wid ++ "/triggers"⟩ = Except.error e2 →
      fetch env ⟨"GET", "/v1/users/me/workflows/" ++ wid ++ "/triggers"⟩ = Except.error e3 →
      getWorkflow env wid = (twf, Except.ok wf) →
      getComponents wf = some comps →
      getWorkflowTriggers env wid =
        ([⟨"GET", "/v2/workflows/" ++ wid ++ "/triggers"⟩,
          ⟨"GET", "/v1/workflows/" ++ wid ++ "/triggers"⟩,
          ⟨"GET", "/v1/users/me/workflows/" ++ wid ++ "/triggers"⟩] ++ twf,
         Except.ok (extractedResult (comps.filter fun c =>
           fieldIsStr c "key" "trigger" || fieldIsStr c "type" "trigger"))))
    ∧ (∀ (e1 e2 e3 : ApiError) (twf : List Request) (wf : Json) (comps : List Json),
      fetch env ⟨"GET", "/v2/workflows/" ++ wid ++ "/steps"⟩ = Except.error e1 →
      fetch env ⟨"GET", "/v1/workflows/" ++ wid ++ "/steps"⟩ = Except.error e2 →
      fetch env ⟨"GET", "/v1/users/me/workflows/" ++ wid ++ "/steps"⟩ = Except.error e3 →
      getWorkflow env wid = (twf, Except.ok wf) →
      getComponents wf = some comps →
      getWorkflowSteps env wid =
        ([⟨"GET", "/v2/workflows/" ++ wid ++ "/steps"⟩,
          ⟨"GET", "/v1/workflows/" ++ wid ++ "/steps"⟩,
          ⟨"GET", "/v1/users/me/workflows/" ++ wid ++ "/steps"⟩] ++ twf,
         Except.ok (extractedResult (comps.filter fun c =>
           !(fieldIsStr c "key" "trigger") && !(fieldIsStr c "type" "trigger"))))) := by
  constructor
  · intro e1 e2 e3 twf wf comps h1 h2 h3 hwf hc
    show getWorkflowTriggers env wid =
      ([⟨"GET", "/v2/workflows/" ++ wid ++ "/triggers"⟩,
        ⟨"GET", "/v1/workflows/" ++ wid ++ "/triggers"⟩,
        ⟨"GET", "/v1/users/me/workflows/" ++ wid ++ "/triggers"⟩] ++ twf,
       Except.ok (extractedResult (deriveTriggers comps)))
    simp only [getWorkflowTriggers, tryBothVersions, makeRequest, Option.getD_some,
      pathTriggersV2, pathTriggersV1, pathUsersMeTriggers, h1, h2, h3, hwf, hc,
      List.cons_append, List.nil_append]
  · intro e1 e2 e3 twf wf comps h1 h2 h3 hwf hc
    show getWorkflowSteps env wid =
      ([⟨"GET", "/v2/workflows/" ++ wid ++ "/steps"⟩,
        ⟨"GET", "/v1/workflows/" ++ wid ++ "/steps"⟩,
        ⟨"GET", "/v1/users/me/workflows/" ++ wid ++ "/steps"⟩] ++ twf,
       Except.ok (extractedResult (deriveSteps comps)))
    simp only [getWorkflowSteps, tryBothVersions, makeRequest, Option.getD_some,
      pathStepsV2, pathStepsV1, pathUsersMeSteps, h1, h2, h3, hwf, hc,
      List.cons_append, List.nil_append]

/-- Witness for the amended C5: the `source`-typed component lands in the
    step set of the extraction fallback. -/
theorem c5_extraction_classification_witness :
    getWorkflowSteps envExtract "w5" =
      ([⟨"GET", "/v2/workflows/w5/steps"⟩, ⟨"GET", "/v1/workflows/w5/steps"⟩,
        ⟨"GET", "/v1/users/me/workflows/w5/steps"⟩, ⟨"GET", "/v2/workflows/w5"⟩],
       Except.ok (extractedResult [compSource])) :=
  (c5_extraction_classification envExtract "w5").2
    (ApiError.statusError 404 "Not Found") (ApiError.statusError 404 "Not Found")
    (ApiError.statusError 404 "Not Found") [⟨"GET", "/v2/workflows/w5"⟩]
    wfCompSource [compSource] rfl rfl rfl rfl rfl

def wfNoComps : Json := Json.obj [("data", Json.obj [("id", Json.str "w7")])]

/-- Environment where only the v2 workflow fetch for `w7` succeeds, and
    the fetched workflow has no `components` array. -/
def envNoComps : Env := fun _ p =>
  if p = "/v2/workflows/w7" then HttpOutcome.response ⟨200, "", some wfNoComps, ""⟩
  else HttpOutcome.response ⟨404, "Not Found", none, ""⟩

/-- C9: when the direct trigger endpoints fail but the inner
    `getWorkflow` succeeds with a components array, `getWorkflowTriggers`
    resolves with `{ data: <filtered>, extracted: true }` — a shape whose
    `extracted` flag is constructed by the fallback, while a direct
    endpoint success is returned unmodified; and when the fetched
    workflow has no components array the operation rejects instead of
    resolving with an empty derivation. The same holds for
    `getWorkflowSteps` with the complementary filter. -/
theorem c9_extracted_flag_shape (env : Env) (wid : String) :
    (∀ xs, (extractedResult xs).getField "extracted" = some (Json.bool true)
      ∧ (extractedResult xs).getField "data" = some (Json.arr xs))
    ∧ (∀ j : Json,
        fetch env ⟨"GET", "/v2/workflows/" ++ wid ++ "/triggers"⟩ = Except.ok j →
        getWorkflowTriggers env wid =
          ([⟨"GET", "/v2/workflows/" ++ wid ++ "/triggers"⟩], Except.ok j))
    ∧ (∀ (e1 e2 e3 : ApiError) (twf : List Request) (wf : Json) (comps : List Json),
        fetch env ⟨"GET", "/v2/workflows/" ++ wid ++ "/triggers"⟩ = Except.error e1 →
        fetch env ⟨"GET", "/v1/workflows/" ++ wid ++ "/triggers"⟩ = Except.error e2 →
        fetch env ⟨"GET", "/v1/users/me/workflows/" ++ wid ++ "/triggers"⟩ = Except.error e3 →
        getWorkflow env wid = (twf, Except.ok wf) →
        getComponents wf = some comps →
        (getWorkflowTriggers env wid).2 =
          Except.ok (extractedResult (deriveTriggers comps)))
    ∧ (∀ (e1 e2 e3 : ApiError) (twf : List Request) (wf : Json),
        fetch env ⟨"GET", "/v2/workflows/" ++ wid ++ "/triggers"⟩ = Except.error e1 →
        fetch env ⟨"GET", "/v1/workflows/" ++ wid ++ "/triggers"⟩ = Except.error e2 →
        fetch env ⟨"GET", "/v1/users/me/workflows/" ++ wid ++ "/triggers"⟩ = Except.error e3 →
        getWorkflow env wid = (twf, Except.ok wf) →
        getComponents wf = none →
        (getWorkflowTriggers env wid).2 = Except.error (ApiError.opError
          "Failed to get workflow triggers after trying multiple endpoints"))
    ∧ (∀ (e1 e2 e3 : ApiError) (twf : List Request) (wf : Json) (comps : List Json),
        fetch env ⟨"GET", "/v2/workflows/" ++ wid ++ "/steps"⟩ = Except.error e1 →
        fetch env ⟨"GET", "/v1/workflows/" ++ wid ++ "/steps"⟩ = Except.error e2 →
        fetch env ⟨"GET", "/v1/users/me/workflows/" ++ wid ++ "/steps"⟩ = Except.error e3 →
        getWorkflow env wid = (twf, Except.ok wf) →
        getComponents wf = some comps →
        (getWorkflowSteps env wid).2 =
          Except.ok (extractedResult (deriveSteps comps)))
    ∧ (∀ (e1 e2 e3 : ApiError) (twf : List Request) (wf : Json),
        fetch env ⟨"GET", "/v2/workflows/" ++ wid ++ "/steps"⟩ = Except.error e1 →
        fetch env ⟨"GET", "/v1/workflows/" ++ wid ++ "/steps"⟩ = Except.error e2 →
        fetch env ⟨"GET", "/v1/users/me/workflows/" ++ wid ++ "/steps"⟩ = Except.error e3 →
        getWorkflow env wid = (twf, Except.ok wf) →
        getComponents wf = none →
        (getWorkflowSteps env wid).2 = Except.error (ApiError.opError
          "Failed to get workflow steps after trying multiple endpoints")) := by
  refine ⟨?_, ?_, ?_, ?_, ?_, ?_⟩
  · intro xs
    exact ⟨rfl, rfl⟩
  · intro j h1
    simp only [getWorkflowTriggers, tryBothVersions, makeRequest, Option.getD_some,
      pathTriggersV2, h1]
  · intro e1 e2 e3 twf wf comps h1 h2 h3 hwf hc
    simp only [getWorkflowTriggers, tryBothVersions, makeRequest, Option.getD_some,
      pathTriggersV2, pathTriggersV1, pathUsersMeTriggers, h1, h2, h3, hwf, hc]
  · intro e1 e2 e3 twf wf h1 h2 h3 hwf hc
    simp only [getWorkflowTriggers, tryBothVersions, makeRequest, Option.getD_some,
      pathTriggersV2, pathTriggersV1, pathUsersMeTriggers, h1, h2, h3, hwf, hc]
  · intro e1 e2 e3 twf wf comps h1 h2 h3 hwf hc
    simp only [getWorkflowSteps, tryBothVersions, makeRequest, Option.getD_some,
      pathStepsV2, pathStepsV1, pathUsersMeSteps, h1, h2, h3, hwf, hc]
  · intro e1 e2 e3 twf wf h1 h2 h3 hwf hc
    simp only [getWorkflowSteps, tryBothVersions, makeRequest, Option.getD_some,
      pathStepsV2, pathStepsV1, pathUsersMeSteps, h1, h2, h3, hwf, hc]

/-- Witness for C9: a workflow without a components array makes the
    trigger fallback reject instead of resolving empty. -/
theorem c9_extracted_flag_shape_witness :
    (getWorkflowTriggers envNoComps "w7").2 = Except.error (ApiError.opError
      "Failed to get workflow triggers after trying multiple endpoints") :=
  (c9_extracted_flag_shape envNoComps "w7").2.2.2.1
    (ApiError.statusError 404 "Not Found") (ApiError.statusError 404 "Not Found")
    (ApiError.statusError 404 "Not Found") [⟨"GET", "/v2/workflows/w7"⟩]
    wfNoComps rfl rfl rfl rfl rfl

/-- The organization-scoped project-workflows request of the loop. -/
def orgProjReq (oid pid : String) : Request :=
  ⟨"GET", "/v1/organizations/" ++ oid ++ "/projects/" ++ pid ++ "/workflows"⟩

/-- The workspace-scoped project-workflows request of the loop. -/
def wsProjReq (oid pid : String) : Request :=
  ⟨"GET", "/v1/workspaces/" ++ oid ++ "/projects/" ++ pid ++ "/workflows"⟩

/-- The ordered request sequence the organization loop issues when every
    candidate fails: organization endpoint then workspace endpoint, per
    organization in order. -/
def orgAttempts (pid : String) : List Json → List Request
  | [] => []
  | org :: rest =>
      orgProjReq (fieldStr org "id") pid :: wsProjReq (fieldStr org "id") pid ::
        orgAttempts pid rest

lemma tryOrgsLoop_all_fail (env : Env) (pid : String) (os : List Json)
    (h : ∀ org ∈ os,
      (∃ e, fetch env (orgProjReq (fieldStr org "id") pid) = Except.error e) ∧
      (∃ e, fetch env (wsProjReq (fieldStr org "id") pid) = Except.error e)) :
    tryOrgsLoop env pid os = (orgAttempts pid os, none) := by
  induction os with
  | nil => rfl
  | cons org rest ih =>
    obtain ⟨⟨eo, ho⟩, ⟨ew, hw⟩⟩ := h org (List.mem_cons_self org rest)
    have ih' := ih fun o hmem => h o (List.mem_cons_of_mem org hmem)
    simp only [orgProjReq] at ho
    simp only [wsProjReq] at hw
    simp only [tryOrgsLoop, makeRequest, pathOrgProjectWorkflows,
      pathWsProjectWorkflows, ho, hw, ih', orgAttempts, orgProjReq, wsProjReq,
      List.cons_append, List.nil_append]

/-- C6: `getProjectWorkflows` tries `GET /v1/projects/{pid}/workflows`
    first; on failure it fetches the current user and, per organization
    in order, tries the organization endpoint then the workspace
    endpoint; when all of those fail it falls back to
    `GET /v1/components/workflows?project_id={pid}` last, resolving with
    that candidate's outcome. -/
theorem c6_getProjectWorkflows_order (env : Env) (pid : String) :
    (∀ j : Json,
      fetch env ⟨"GET", "/v1/projects/" ++ pid ++ "/workflows"⟩ = Except.ok j →
      getProjectWorkflows env pid =
        ([⟨"GET", "/v1/projects/" ++ pid ++ "/workflows"⟩], Except.ok j))
    ∧ (∀ (e0 : ApiError) (user : Json),
      fetch env ⟨"GET", "/v1/projects/" ++ pid ++ "/workflows"⟩ = Except.error e0 →
      fetch env ⟨"GET", "/v1/users/me"⟩ = Except.ok user →
      (∀ org ∈ getOrgs user,
        (∃ e, fetch env (orgProjReq (fieldStr org "id") pid) = Except.error e) ∧
        (∃ e, fetch env (wsProjReq (fieldStr org "id") pid) = Except.error e)) →
      getProjectWorkflows env pid =
        ([⟨"GET", "/v1/projects/" ++ pid ++ "/workflows"⟩, ⟨"GET", "/v1/users/me"⟩] ++
          orgAttempts pid (getOrgs user) ++
          [⟨"GET", "/v1/components/workflows?project_id=" ++ pid⟩],
         fetch env ⟨"GET", "/v1/components/workflows?project_id=" ++ pid⟩))
    ∧ (∀ (e0 eo : ApiError) (user org : Json) (rest : List Json) (j : Json),
      fetch env ⟨"GET", "/v1/projects/" ++ pid ++ "/workflows"⟩ = Except.error e0 →
      fetch env ⟨"GET", "/v1/users/me"⟩ = Except.ok user →
      getOrgs user = org :: rest →
      fetch env (orgProjReq (fieldStr org "id") pid) = Except.error eo →
      fetch env (wsProjReq (fieldStr org "id") pid) = Except.ok j →
      getProjectWorkflows env pid =
        ([⟨"GET", "/v1/projects/" ++ pid ++ "/workflows"⟩, ⟨"GET", "/v1/users/me"⟩,
          orgProjReq (fieldStr org "id") pid, wsProjReq (fieldStr org "id") pid],
         Except.ok j)) := by
  refine ⟨?_, ?_, ?_⟩
  · intro j h0
    simp only [getProjectWorkflows, makeRequest, pathProjectWorkflows, h0]
  · intro e0 user h0 hme hfail
    simp only [getProjectWorkflows, makeRequest, getUserDetails,
      pathProjectWorkflows, pathUsersMe, pathComponentsWorkflows, h0, hme,
      tryOrgsLoop_all_fail env pid (getOrgs user) hfail,
      List.cons_append, List.nil_append, List.append_assoc]
  · intro e0 eo user org rest j h0 hme horgs ho hw
    simp only [orgProjReq] at ho
    simp only [wsProjReq] at hw
    simp only [getProjectWorkflows, makeRequest, getUserDetails, tryOrgsLoop,
      pathProjectWorkflows, pathUsersMe, pathOrgProjectWorkflows,
      pathWsProjectWorkflows, h0, hme, horgs, ho, hw, orgProjReq, wsProjReq,
      List.cons_append, List.nil_append]

/-- Environment for the C6 witness: user in `org_1`, all project
    endpoints 404 except the components API, which returns an empty
    workflow list. -/
def envComponentsLast : Env := fun _ p =>
  if p = "/v1/users/me" then HttpOutcome.response ⟨200, "", some userSample, ""⟩
  else if p = "/v1/components/workflows?project_id=p1" then
    HttpOutcome.response ⟨200, "", some (Json.obj [("data", Json.arr [])]), ""⟩
  else HttpOutcome.response ⟨404, "Not Found", none, ""⟩

/-- Witness for C6: with one organization and every scoped endpoint
    failing, the components API is attempted last and its response is
    returned. -/
theorem c6_getProjectWorkflows_order_witness :
    getProjectWorkflows envComponentsLast "p1" =
      ([⟨"GET", "/v1/projects/p1/workflows"⟩, ⟨"GET", "/v1/users/me"⟩,
        ⟨"GET", "/v1/organizations/org_1/projects/p1/workflows"⟩,
        ⟨"GET", "/v1/workspaces/org_1/projects/p1/workflows"⟩,
        ⟨"GET", "/v1/components/workflows?project_id=p1"⟩],
       Except.ok (Json.obj [("data", Json.arr [])])) :=
  (c6_getProjectWorkflows_order envComponentsLast "p1").2.1
    (ApiError.statusError 404 "Not Found") userSample rfl rfl
    (by
      intro org hmem
      have : org = orgSample := by
        have h' : org ∈ [orgSample] := hmem
        simpa using h'
      subst this
      exact ⟨⟨ApiError.statusError 404 "Not Found", rfl⟩,
        ⟨ApiError.statusError 404 "Not Found", rfl⟩⟩)

/-- C10: in the simple client, when no `orgId` argument is given and the
    internal `getUserDetails` call rejects, that rejection is swallowed:
    `getWorkflow`, `getWorkflowCode` and `getProjectWorkflows` proceed to
    their primary endpoint with no `org_id` query parameter appended, and
    each operation's outcome is exactly the primary request's outcome. -/
theorem c10_org_resolution_soft_failure (env : Env) (wid pid : String)
    (e : ApiError)
    (hme : fetch env ⟨"GET", "/v1/users/me"⟩ = Except.error e) :
    simpleGetWorkflow env wid none =
      ([⟨"GET", "/v1/users/me"⟩, ⟨"GET", "/v1/workflows/" ++ wid⟩],
       fetch env ⟨"GET", "/v1/workflows/" ++ wid⟩)
    ∧ simpleGetWorkflowCode env wid none =
      ([⟨"GET", "/v1/users/me"⟩, ⟨"GET", "/v1/workflows/" ++ wid ++ "/code"⟩],
       fetch env ⟨"GET", "/v1/workflows/" ++ wid ++ "/code"⟩)
    ∧ simpleGetProjectWorkflows env pid none =
      ([⟨"GET", "/v1/users/me"⟩, ⟨"GET", "/v1/projects/" ++ pid ++ "/workflows"⟩],
       fetch env ⟨"GET", "/v1/projects/" ++ pid ++ "/workflows"⟩) := by
  refine ⟨?_, ?_, ?_⟩
  · simp only [simpleGetWorkflow, resolveOrgId, simpleGetUserDetails,
      simpleMakeRequest, spathUsersMe, spathWorkflows, hme,
      List.cons_append, List.nil_append]
  · simp only [simpleGetWorkflowCode, resolveOrgId, simpleGetUserDetails,
      simpleMakeRequest, spathUsersMe, spathWorkflowCode, hme,
      List.cons_append, List.nil_append]
  · cases hp : fetch env ⟨"GET", "/v1/projects/" ++ pid ++ "/workflows"⟩ with
    | ok j =>
      simp only [simpleGetProjectWorkflows, resolveOrgId, simpleGetUserDetails,
        simpleMakeRequest, spathUsersMe, spathProjectWorkflows, hme, hp,
        List.cons_append, List.nil_append]
    | error e' =>
      simp only [simpleGetProjectWorkflows, resolveOrgId, simpleGetUserDetails,
        simpleMakeRequest, spathUsersMe, spathProjectWorkflows, hme, hp,
        List.cons_append, List.nil_append]

/-- Environment for the C10 witness: the user endpoint suffers a
    connection reset while everything else returns a 2xx JSON body. -/
def envMeReset : Env := fun _ p =>
  if p = "/v1/users/me" then HttpOutcome.transportError "read ECONNRESET"
  else HttpOutcome.response ⟨200, "[1]", some (Json.arr [Json.num 1]), ""⟩

/-- Witness for C10: the workflow fetch still succeeds although the org
    resolution failed with a transport error. -/
theorem c10_org_resolution_soft_failure_witness :
    simpleGetWorkflow envMeReset "w1" none =
      ([⟨"GET", "/v1/users/me"⟩, ⟨"GET", "/v1/workflows/w1"⟩],
       Except.ok (Json.arr [Json.num 1])) :=
  (c10_org_resolution_soft_failure envMeReset "w1" "p1"
    (ApiError.transport "read ECONNRESET") rfl).1
